import Mathlib

/-!
Shallow embedding of the authentication core of `fastapi-passkey-auth`
(`src/app`): the password credential verifier (services/password.py), the
JWT token issuer/verifier (services/token.py), the authentication
orchestrator (services/auth.py, api/auth.py), the user service
(services/user.py) and the WebAuthn ceremony engine (services/webauthn.py),
together with the request-authentication dependency (dependencies.py).

Conventions of the embedding:
* async functions become plain functions (the database session becomes an
  explicit list of rows passed in and out);
* machine integers are `Nat`/`Int`; wall-clock time is an `Int` of seconds
  since the epoch;
* Python exceptions become an explicit `PyError` value; a FastAPI
  `HTTPException` raised by first-party code is kept separate from other
  (unhandled, hence HTTP 500) Python exceptions via `RouteErr`;
* third-party libraries (passlib/bcrypt, python-jose, py_webauthn) are
  modelled from their documented behaviour, as noted at each definition;
* CPython error messages are reproduced without the quote characters that
  `str(e)` would include, so that string literals stay plain.
-/

/-- Byte strings (credential ids, public keys, challenges, UTF-8 encoded
passwords) are lists of byte values. -/
abbrev Bytes := List Nat

/-- UTF-8 bytes of an ASCII string literal, used to write concrete
password inputs. -/
def strBytes (s : String) : Bytes := s.toList.map Char.toNat

/-- Python exceptions that the embedded code can raise.  The payload is the
message `str(e)` would produce (quote characters elided). -/
inductive PyError where
  | typeError (msg : String)
  | attributeError (msg : String)
  | nameError (msg : String)
  | valueError (msg : String)
  | unknownHashError (msg : String)
  | jwtError (msg : String)
  | jwkError (msg : String)
  | jwsError (msg : String)
  | invalidRegistration (msg : String)
  | invalidAuthentication (msg : String)
  deriving DecidableEq, Repr

/-- Python `str(e)` for an exception: the stored message. -/
def PyError.str : PyError → String
  | .typeError m => m
  | .attributeError m => m
  | .nameError m => m
  | .valueError m => m
  | .unknownHashError m => m
  | .jwtError m => m
  | .jwkError m => m
  | .jwsError m => m
  | .invalidRegistration m => m
  | .invalidAuthentication m => m

/-- Whether an exception is an instance of python-jose `JWTError` — the
only class the `except JWTError` handlers in token.py:96 and
dependencies.py:65 catch.  `JWKError` and `JWSError` are sibling
subclasses of `JOSEError`, not of `JWTError`, so they escape those
handlers. -/
def PyError.is_jwt_error : PyError → Bool
  | .jwtError _ => true
  | _ => false

/-- A FastAPI `HTTPException` (status code and detail text). -/
structure HTTPException where
  status : Nat
  detail : String
  deriving DecidableEq, Repr

/-- Outcome of a route or service call: an `HTTPException` surfaced to the
client, or an uncaught Python exception (which FastAPI turns into a 500). -/
inductive RouteErr where
  | http (e : HTTPException)
  | py (e : PyError)
  deriving DecidableEq, Repr

instance {ε α : Type} [DecidableEq ε] [DecidableEq α] : DecidableEq (Except ε α) := fun a b =>
  match a, b with
  | .ok x, .ok y =>
    if h : x = y then isTrue (by rw [h]) else isFalse (fun he => h (Except.ok.inj he))
  | .error x, .error y =>
    if h : x = y then isTrue (by rw [h]) else isFalse (fun he => h (Except.error.inj he))
  | .ok _, .error _ => isFalse (fun he => Except.noConfusion he)
  | .error _, .ok _ => isFalse (fun he => Except.noConfusion he)

/-! ### config.py

`Settings` (config.py lines 5-34).  `SECRET_KEY` is declared as a pydantic
`SecretStr` (config.py line 26) — a wrapper object, not a `str` — and the
application passes it raw, never calling `get_secret_value()`, to
python-jose at token.py lines 33, 58 and 77 and dependencies.py line 59.
Note also that the settings class defines `JWT_ALGORITHM` and no attribute
named `TOKEN_ALGORITHM`. -/

/-- A pydantic `SecretStr`: a wrapper object around the secret string; it
is not an instance of `str` or `bytes`. -/
structure SecretStr where
  secret_value : String
  deriving DecidableEq, Repr

/-- Application settings (config.py).  Field names follow the source. -/
structure Settings where
  SECRET_KEY : SecretStr
  JWT_ALGORITHM : String
  ACCESS_TOKEN_EXPIRE_MINUTES : Nat
  REFRESH_TOKEN_EXPIRE_DAYS : Nat
  WEBAUTHN_RP_ID : String
  WEBAUTHN_RP_NAME : String
  WEBAUTHN_RP_ORIGIN : String
  deriving DecidableEq, Repr

/-- Reading `settings.TOKEN_ALGORITHM` (api/auth.py line 254): the
`Settings` class (config.py lines 19-34) declares `JWT_ALGORITHM` but no
`TOKEN_ALGORITHM`, so the attribute access raises `AttributeError`. -/
def Settings.TOKEN_ALGORITHM_attr (_cfg : Settings) : Except PyError String :=
  .error (.attributeError "Settings object has no attribute TOKEN_ALGORITHM")

/-! ### services/password.py

`PasswordService` delegates to passlib `CryptContext(schemes=["bcrypt"])`.
The bcrypt algorithm is modelled by its two documented properties that
matter here:
* bcrypt only hashes the first 72 bytes of the password (passlib
  `bcrypt.truncate_size = 72`, silent truncation by default);
* the digest is determined by (salt, truncated password), and verification
  recomputes the digest with the stored salt and compares — modelled by an
  idealised collision-free digest, i.e. the pair itself.
A stored hash string is either a well-formed self-describing bcrypt hash
or malformed; passlib `CryptContext.verify` raises `UnknownHashError` (a
`ValueError`) when the hash string cannot be identified, it does not
return `False`. -/

/-- Truncation bcrypt applies to passwords before hashing (first 72 bytes). -/
def bcrypt_truncate (password : Bytes) : Bytes := password.take 72

/-- An idealised bcrypt digest: salt plus the digest body, which for the
idealised collision-free hash is the truncated password itself. -/
structure BcryptDigest where
  salt : Nat
  body : Bytes
  deriving DecidableEq, Repr

/-- A stored password-hash string: a well-formed self-describing bcrypt
hash, or an arbitrary malformed string. -/
inductive HashStr where
  | bcrypt (d : BcryptDigest)
  | malformed (raw : String)
  deriving DecidableEq, Repr

/-- `PasswordService.hash_password` (password.py lines 22-31): bcrypt with a
fresh salt; the salt is passed explicitly since the embedding is pure. -/
def PasswordService.hash_password (salt : Nat) (password : Bytes) : HashStr :=
  .bcrypt ⟨salt, bcrypt_truncate password⟩

/-- `PasswordService.verify_password` (password.py lines 10-20): delegates to
passlib `CryptContext.verify`, which recomputes the digest for a
well-formed hash and raises `UnknownHashError` for a malformed one. -/
def PasswordService.verify_password (plain_password : Bytes) (hashed_password : HashStr) :
    Except PyError Bool :=
  match hashed_password with
  | .bcrypt d => .ok (decide (bcrypt_truncate plain_password = d.body))
  | .malformed _ => .error (.unknownHashError "hash could not be identified")

/-! ### python-jose JWT layer

A signed token is modelled as its payload together with the key string and
algorithm it was signed with; for a proper string key, `jose_decode`
accepts it exactly when the keys agree and the algorithm is allowed
(idealised unforgeable signature), then validates the `exp` claim —
python-jose `jwt.decode` raises `ExpiredSignatureError` (a `JWTError`)
when the embedded expiry is in the past, and skips the check when no
`exp` claim is present.

The `key` argument, however, is an arbitrary Python value.  python-jose's
HMAC key construction (`jwk.construct` → `HMACKey.__init__`) accepts only
`str`, `bytes` or a JWK dict and raises `JWKError` ("Expecting a string-
or bytes-formatted key.") for anything else — in particular for a pydantic
`SecretStr`.  On `jwt.encode`, `jws._sign_header_and_claims` wraps that in
a `JWSError`; on `jwt.decode`, the `JWKError` propagates unwrapped (it is
not a `JWSError`, so `jwt.decode`'s re-wrapping into `JWTError` does not
apply to it), and neither error is caught by an `except JWTError`. -/

/-- The Python value this application passes as the jose `key` argument:
either a proper string or a pydantic `SecretStr` object. -/
inductive JoseKeyArg where
  | str (s : String)
  | secretStr (s : SecretStr)
  deriving DecidableEq, Repr

/-- The JWT claims used by this application: `sub`, `exp` and `type`.
Each claim may be absent. -/
structure JwtPayload where
  sub : Option String
  exp : Option Int
  typ : Option String
  deriving DecidableEq, Repr

/-- A signed compact token: payload plus signing key and algorithm. -/
structure JwtToken where
  payload : JwtPayload
  key : String
  alg : String
  deriving DecidableEq, Repr

/-- python-jose `jwt.encode(claims, key, algorithm)`: signs and returns
the token for a string key; raises `JWSError` (wrapping the `JWKError`
from HMAC key construction) for a non-str/bytes key such as `SecretStr`. -/
def jose_encode (claims : JwtPayload) (key : JoseKeyArg) (alg : String) :
    Except PyError JwtToken :=
  match key with
  | .str s => .ok ⟨claims, s, alg⟩
  | .secretStr _ => .error (.jwsError "Expecting a string- or bytes-formatted key.")

/-- python-jose `jwt.decode(token, key, algorithms)`: the allowed-algorithm
check first (its `JWSError` is re-wrapped by `jwt.decode` into a
`JWTError`), then key construction — which raises `JWKError`, escaping
`except JWTError`, for a non-str/bytes key such as `SecretStr` — then the
signature check and `exp` validation against the current time. -/
def jose_decode (token : JwtToken) (key : JoseKeyArg) (algorithms : List String) (now : Int) :
    Except PyError JwtPayload :=
  if ¬ algorithms.contains token.alg then
    .error (.jwtError "The specified alg value is not allowed")
  else
    match key with
    | .secretStr _ => .error (.jwkError "Expecting a string- or bytes-formatted key.")
    | .str s =>
      if token.key ≠ s then
        .error (.jwtError "Signature verification failed.")
      else
        match token.payload.exp with
        | some e =>
          if e < now then .error (.jwtError "Signature has expired.") else .ok token.payload
        | none => .ok token.payload

/-! ### Python `uuid.UUID(s)` parsing

`uuid.UUID` strips hyphens and requires exactly 32 hexadecimal digits,
raising `ValueError` otherwise (the decimal `str(int)` subjects this
application issues are shorter than 32 characters and fail to parse). -/

/-- Value of one hexadecimal digit, if the character is one. -/
def hexDigitVal (c : Char) : Option Nat :=
  if 48 ≤ c.toNat ∧ c.toNat ≤ 57 then some (c.toNat - 48)
  else if 97 ≤ c.toNat ∧ c.toNat ≤ 102 then some (c.toNat - 87)
  else if 65 ≤ c.toNat ∧ c.toNat ≤ 70 then some (c.toNat - 55)
  else none

/-- Accumulate hex digits left to right; `none` on any non-hex character. -/
def hexValue (cs : List Char) : Option Nat :=
  cs.foldl (fun acc c =>
    match acc, hexDigitVal c with
    | some a, some v => some (16 * a + v)
    | _, _ => none) (some 0)

/-- Python `uuid.UUID(s)`: remove hyphens, require 32 hex digits; the UUID
value is modelled as the 128-bit integer. -/
def python_uuid_parse (s : String) : Option Nat :=
  let hex := s.toList.filter (fun c => c.toNat ≠ 45)
  if hex.length = 32 then hexValue hex else none

example : python_uuid_parse "1" = none := by decide

example : PasswordService.verify_password (strBytes "p")
    (PasswordService.hash_password 3 (strBytes "p")) = .ok true := by decide

/-! ### models/user.py and models/auth.py

`User` (models/user.py lines 8-29): integer primary key, unique email,
optional `password_hash` column (note the column name), full name, active
flag, optional last-login timestamp.  `Authenticator` (models/auth.py
lines 8-39): credential id, public key, signature counter, owning user id,
optional last-used timestamp. -/

/-- The persisted `User` row (models/user.py). -/
structure User where
  id : Nat
  email : String
  password_hash : Option HashStr
  full_name : String
  is_active : Bool
  last_login : Option Int
  deriving DecidableEq, Repr

/-- Mapped attribute names accepted by the SQLAlchemy declarative
constructor `User(**kwargs)` (models/user.py lines 19-29 plus the
`created_at`/`updated_at` columns of models/base.py). -/
def userColumns : List String :=
  ["id", "email", "password_hash", "full_name", "is_active", "last_login",
   "authenticators", "created_at", "updated_at"]

/-- The persisted `Authenticator` row (models/auth.py).  The source maps
`credential_id`/`public_key` as string columns but stores the byte values
produced by the webauthn library; they are modelled as byte strings. -/
structure Authenticator where
  id : Nat
  credential_id : Bytes
  public_key : Bytes
  sign_count : Nat
  user_id : Nat
  last_used_at : Option Int
  deriving DecidableEq, Repr

/-! ### services/token.py -/

/-- `TokenData` (schemas/token.py): the parsed subject id. -/
structure TokenData where
  user_id : Nat
  deriving DecidableEq, Repr

/-- `Token` (schemas/token.py): the access+refresh pair returned to the
client. -/
structure Token where
  access_token : JwtToken
  refresh_token : JwtToken
  token_type : String
  deriving DecidableEq, Repr

/-- The `to_encode` dict built by `TokenService.create_access_token`
(token.py lines 25-29): `sub = str(user_id)`,
`exp = now + ACCESS_TOKEN_EXPIRE_MINUTES` minutes, `type = "access"`. -/
def TokenService.access_to_encode (cfg : Settings) (user_id : Nat) (now : Int) : JwtPayload :=
  ⟨some (toString user_id), some (now + 60 * cfg.ACCESS_TOKEN_EXPIRE_MINUTES), some "access"⟩

/-- The `to_encode` dict built by `TokenService.create_refresh_token`
(token.py lines 49-53): `sub = str(user_id)`,
`exp = now + REFRESH_TOKEN_EXPIRE_DAYS` days, `type = "refresh"`. -/
def TokenService.refresh_to_encode (cfg : Settings) (user_id : Nat) (now : Int) : JwtPayload :=
  ⟨some (toString user_id), some (now + 86400 * cfg.REFRESH_TOKEN_EXPIRE_DAYS), some "refresh"⟩

/-- `TokenService.create_access_token` (token.py lines 13-35): builds the
`to_encode` dict and calls `jwt.encode(to_encode, settings.SECRET_KEY,
algorithm=settings.JWT_ALGORITHM)` — passing the `SecretStr` raw (token.py
line 33), so the encode raises `JWSError` on every call. -/
def TokenService.create_access_token (cfg : Settings) (user_id : Nat) (now : Int) :
    Except PyError JwtToken :=
  jose_encode (TokenService.access_to_encode cfg user_id now)
    (.secretStr cfg.SECRET_KEY) cfg.JWT_ALGORITHM

/-- `TokenService.create_refresh_token` (token.py lines 37-59): same shape
as `create_access_token`, with the raw `SecretStr` at token.py line 57. -/
def TokenService.create_refresh_token (cfg : Settings) (user_id : Nat) (now : Int) :
    Except PyError JwtToken :=
  jose_encode (TokenService.refresh_to_encode cfg user_id now)
    (.secretStr cfg.SECRET_KEY) cfg.JWT_ALGORITHM

/-- `TokenService.verify_token` (token.py lines 61-100): decode with the
raw `SecretStr` key (token.py line 77) — only a `JWTError` is caught and
mapped to HTTP 401 "Invalid or expired token", while the `JWKError`
raised by key construction escapes the handler as an uncaught exception on
every call, so the later checks are unreachable in the program; were the
decode to succeed, the `type` claim must equal `token_type` (HTTP 401
"Invalid token type"), the `sub` claim must be present (HTTP 401 "Invalid
token payload"), and `UUID(user_id)` must parse — its `ValueError` is
also not a `JWTError` and would escape the `except` clause. -/
def TokenService.verify_token (cfg : Settings) (token : JwtToken) (token_type : String)
    (now : Int) : Except RouteErr TokenData :=
  match jose_decode token (.secretStr cfg.SECRET_KEY) [cfg.JWT_ALGORITHM] now with
  | .error e =>
    if e.is_jwt_error then .error (.http ⟨401, "Invalid or expired token"⟩)
    else .error (.py e)
  | .ok payload =>
    if payload.typ ≠ some token_type then
      .error (.http ⟨401, "Invalid token type"⟩)
    else
      match payload.sub with
      | none => .error (.http ⟨401, "Invalid token payload"⟩)
      | some user_id =>
        match python_uuid_parse user_id with
        | none => .error (.py (.valueError "badly formed hexadecimal UUID string"))
        | some uid => .ok ⟨uid⟩

/-! ### dependencies.py -/

/-- Decimal parsing of a nonempty all-digit string, `none` otherwise. -/
def decStrToNat (s : String) : Option Nat :=
  let cs := s.toList
  if cs ≠ [] ∧ cs.all (fun c => 48 ≤ c.toNat ∧ c.toNat ≤ 57) then
    some (cs.foldl (fun n c => n * 10 + (c.toNat - 48)) 0)
  else none

/-- SQLite comparison of an INTEGER column with a bound text parameter
(dependencies.py line 69 compares `User.id`, an integer column, with the
string `sub` claim): SQLite applies numeric affinity to the text operand,
so the comparison succeeds exactly when the text parses as that integer. -/
def sqlite_int_eq_text (i : Nat) (s : String) : Bool := decStrToNat s == some i

/-- `get_current_user` (dependencies.py lines 34-74): decode the bearer
token with the raw `SecretStr` key (dependencies.py line 59) — only a
`JWTError` maps to HTTP 401 "Could not validate credentials", while the
`JWKError` from key construction escapes the handler (HTTP 500) on every
call, so the dependency never accepts any token; were the decode to
succeed, it requires a `sub` claim and looks the user up by id.  Note:
the dependency never inspects the `type` claim anywhere in its body. -/
def get_current_user (cfg : Settings) (db : List User) (token : JwtToken) (now : Int) :
    Except RouteErr User :=
  match jose_decode token (.secretStr cfg.SECRET_KEY) [cfg.JWT_ALGORITHM] now with
  | .error e =>
    if e.is_jwt_error then .error (.http ⟨401, "Could not validate credentials"⟩)
    else .error (.py e)
  | .ok payload =>
    match payload.sub with
    | none => .error (.http ⟨401, "Could not validate credentials"⟩)
    | some user_id =>
      match db.find? (fun u => sqlite_int_eq_text u.id user_id) with
      | none => .error (.http ⟨401, "Could not validate credentials"⟩)
      | some user => .ok user

/-! ### services/auth.py -/

/-- The attribute read `user.hashed_password` (auth.py lines 42 and 44).
The `User` model (models/user.py lines 19-24) declares the column
`password_hash`, not `hashed_password`, and SQLAlchemy instances raise
`AttributeError` for undeclared attributes. -/
def User.hashed_password_attr (_user : User) : Except PyError (Option HashStr) :=
  .error (.attributeError "User object has no attribute hashed_password")

/-- `UserService.get_user_by_email` (user.py lines 22-34). -/
def UserService.get_user_by_email (db : List User) (email : String) : Option User :=
  db.find? (fun u => u.email == email)

/-- `AuthService.authenticate_user` (auth.py lines 27-46): look the user up
by email; `None` when absent; otherwise read `user.hashed_password`
(which raises, see `User.hashed_password_attr`) and verify the password. -/
def AuthService.authenticate_user (db : List User) (email : String) (password : Bytes) :
    Except PyError (Option User) :=
  match UserService.get_user_by_email db email with
  | none => .ok none
  | some user =>
    match user.hashed_password_attr with
    | .error e => .error e
    | .ok none => .ok none
    | .ok (some hp) =>
      match PasswordService.verify_password password hp with
      | .error e => .error e
      | .ok false => .ok none
      | .ok true => .ok (some user)

/-- `AuthService.create_tokens` (auth.py lines 48-63): both encodes raise
`JWSError` with the raw `SecretStr` key, which propagates. -/
def AuthService.create_tokens (cfg : Settings) (user_id : Nat) (now : Int) :
    Except PyError Token := do
  let access_token ← TokenService.create_access_token cfg user_id now
  let refresh_token ← TokenService.create_refresh_token cfg user_id now
  pure ⟨access_token, refresh_token, "bearer"⟩

/-- `AuthService.refresh_tokens` (auth.py lines 65-85): verify the refresh
token with expected type "refresh", then issue a fresh pair for the same
subject.  (`verify_token` raises rather than returning `None`, so the
`if not token_data` branch is dead; the source also returns
`self.create_tokens(...)` without awaiting it — the coroutine is modelled
by its value.) -/
def AuthService.refresh_tokens (cfg : Settings) (refresh_token : JwtToken) (now : Int) :
    Except RouteErr Token :=
  match TokenService.verify_token cfg refresh_token "refresh" now with
  | .error e => .error e
  | .ok token_data =>
    match AuthService.create_tokens cfg token_data.user_id now with
    | .error e => .error (.py e)
    | .ok tokens => .ok tokens

/-! ### api/auth.py password and refresh routes -/

/-- Calling the `TokenService` class object with `nargs` positional
arguments: the class defines no `__init__` (token.py lines 10-11), so any
argument raises `TypeError` — and both api/auth.py line 90 and line 118
call `TokenService(session)` with one argument. -/
def pyCallTokenService (nargs : Nat) : Except PyError Unit :=
  if nargs = 0 then .ok ()
  else .error (.typeError "TokenService() takes no arguments")

/-- The `POST /login` route (api/auth.py lines 60-98): authenticate, map a
`None` user to HTTP 401 "Incorrect email or password", then construct
`TokenService(session)` (which raises `TypeError`) and issue the pair. -/
def api_login (cfg : Settings) (db : List User) (email : String) (password : Bytes)
    (now : Int) : Except RouteErr Token :=
  match AuthService.authenticate_user db email password with
  | .error e => .error (.py e)
  | .ok none => .error (.http ⟨401, "Incorrect email or password"⟩)
  | .ok (some user) =>
    match pyCallTokenService 1 with
    | .error e => .error (.py e)
    | .ok _ =>
      match TokenService.create_access_token cfg user.id now,
            TokenService.create_refresh_token cfg user.id now with
      | .ok a_tok, .ok r_tok => .ok ⟨a_tok, r_tok, "bearer"⟩
      | .error e, _ => .error (.py e)
      | _, .error e => .error (.py e)

/-- The `POST /refresh` route (api/auth.py lines 101-128): constructs
`TokenService(session)` (line 118, raises `TypeError`); were that fixed,
after a successful `verify_token` the body references the undefined name
`user` (line 124), raising `NameError`. -/
def api_refresh_token (cfg : Settings) (refresh_token : JwtToken) (now : Int) :
    Except RouteErr Token :=
  match pyCallTokenService 1 with
  | .error e => .error (.py e)
  | .ok _ =>
    match TokenService.verify_token cfg refresh_token "refresh" now with
    | .error e => .error e
    | .ok _token_data => .error (.py (.nameError "name user is not defined"))

/-! ### services/user.py

`create_user` and `update_user` manipulate the pydantic `model_dump`
dictionary before persisting: the dictionary is modelled as an ordered
association list of string keys and Python values. -/

/-- A value stored in the dumped dictionary: a string field, a plaintext
password, a computed hash, or Python `None`. -/
inductive PyVal where
  | vs (s : String)
  | vpw (password : Bytes)
  | vhash (h : HashStr)
  | vnone
  deriving DecidableEq, Repr

/-- A Python dict with string keys, as an ordered association list. -/
abbrev PyDict := List (String × PyVal)

/-- Python `dict.pop(k, None)`: remove the key if present. -/
def dict_pop (d : PyDict) (k : String) : PyDict := d.filter (fun kv => kv.1 ≠ k)

/-- Dictionary lookup. -/
def dict_get (d : PyDict) (k : String) : Option PyVal :=
  (d.find? (fun kv => kv.1 == k)).map (fun kv => kv.2)

/-- Python truthiness of the optional password field: `if data.password:`
is false for `None` and for the empty string. -/
def pw_truthy : Option Bytes → Option Bytes
  | some p => if p.isEmpty then none else some p
  | none => none

/-- `UserCreate` (schemas/user.py): email, full name, optional password. -/
structure UserCreate where
  email : String
  full_name : String
  password : Option Bytes
  deriving DecidableEq, Repr

/-- `UserCreate.model_dump()`: all three fields, the password as given. -/
def UserCreate.model_dump (d : UserCreate) : PyDict :=
  [("email", .vs d.email), ("full_name", .vs d.full_name),
   ("password", match d.password with | some p => .vpw p | none => .vnone)]

/-- The dictionary built by `UserService.create_user` (user.py lines
70-76): dump, add `hashed_password` when the password is truthy, pop the
plaintext `password` key. -/
def UserService.create_user_dict (salt : Nat) (user_data : UserCreate) : PyDict :=
  let user_dict := user_data.model_dump
  let user_dict :=
    match pw_truthy user_data.password with
    | some p => user_dict ++ [("hashed_password", .vhash (PasswordService.hash_password salt p))]
    | none => user_dict
  dict_pop user_dict "password"

/-- The SQLAlchemy declarative constructor `User(**kwargs)` (user.py line
78): every keyword must name a mapped attribute of the model, otherwise
`TypeError`; `id` comes from the primary-key default, modelled by
`next_id`. -/
def declarative_User_ctor (next_id : Nat) (kwargs : PyDict) : Except PyError User :=
  match kwargs.find? (fun kv => ¬ userColumns.contains kv.1) with
  | some kv => .error (.typeError (kv.1 ++ " is an invalid keyword argument for User"))
  | none =>
    .ok { id := next_id
          email := match dict_get kwargs "email" with | some (.vs s) => s | _ => ""
          password_hash := match dict_get kwargs "password_hash" with
            | some (.vhash h) => some h | _ => none
          full_name := match dict_get kwargs "full_name" with | some (.vs s) => s | _ => ""
          is_active := true
          last_login := none }

/-- `UserService.create_user` (user.py lines 50-83): duplicate-email check,
dictionary preparation, model construction, persist. -/
def UserService.create_user (db : List User) (next_id salt : Nat) (user_data : UserCreate) :
    Except RouteErr (User × List User) :=
  match UserService.get_user_by_email db user_data.email with
  | some _ => .error (.http ⟨400, "Email already registered"⟩)
  | none =>
    match declarative_User_ctor next_id (UserService.create_user_dict salt user_data) with
    | .error e => .error (.py e)
    | .ok user => .ok (user, db ++ [user])

/-- `UserUpdate` (schemas/user.py); a `none` field models a field that was
not supplied (pydantic `exclude_unset`). -/
structure UserUpdate where
  email : Option String
  full_name : Option String
  password : Option Bytes
  deriving DecidableEq, Repr

/-- `update_data.model_dump(exclude_unset=True)` (user.py line 115): only
the supplied fields, in declaration order. -/
def UserUpdate.model_dump_exclude_unset (d : UserUpdate) : PyDict :=
  (match d.email with | some e => [("email", PyVal.vs e)] | none => [])
    ++ (match d.full_name with | some n => [("full_name", PyVal.vs n)] | none => [])
    ++ (match d.password with | some p => [("password", PyVal.vpw p)] | none => [])

/-- The dictionary built by `UserService.update_user` (user.py lines
114-120): dump set fields, add `hashed_password` when the password is
truthy, pop the plaintext `password` key. -/
def UserService.update_user_dict (salt : Nat) (update_data : UserUpdate) : PyDict :=
  let update_dict := update_data.model_dump_exclude_unset
  let update_dict :=
    match pw_truthy update_data.password with
    | some p => update_dict ++ [("hashed_password", .vhash (PasswordService.hash_password salt p))]
    | none => update_dict
  dict_pop update_dict "password"

/-- One `setattr(user, key, value)` of the loop at user.py lines 122-123.
Only mapped columns change the persisted row; an undeclared name such as
`hashed_password` becomes a plain in-memory attribute that the commit
never writes, so the persisted row is unchanged by it. -/
def apply_setattr (user : User) (kv : String × PyVal) : User :=
  if kv.1 = "email" then
    match kv.2 with | .vs s => { user with email := s } | _ => user
  else if kv.1 = "full_name" then
    match kv.2 with | .vs s => { user with full_name := s } | _ => user
  else if kv.1 = "password_hash" then
    match kv.2 with
    | .vhash h => { user with password_hash := some h }
    | .vnone => { user with password_hash := none }
    | _ => user
  else user

/-- The persisted effect of the `setattr` loop (user.py lines 122-123). -/
def UserService.update_user_apply (user : User) (update_dict : PyDict) : User :=
  update_dict.foldl apply_setattr user

/-- `UserService.update_user` (user.py lines 85-128): 404 when the user is
absent, duplicate-email check when the email changes, then the `setattr`
loop and commit. -/
def UserService.update_user (db : List User) (user_id salt : Nat) (update_data : UserUpdate) :
    Except RouteErr (User × List User) :=
  match db.find? (fun u => u.id == user_id) with
  | none => .error (.http ⟨404, "User not found"⟩)
  | some user =>
    let emailClash :=
      match update_data.email with
      | some e => decide (e ≠ user.email) && (UserService.get_user_by_email db e).isSome
      | none => false
    if emailClash then .error (.http ⟨400, "Email already registered"⟩)
    else
      let persisted := UserService.update_user_apply user
        (UserService.update_user_dict salt update_data)
      .ok (persisted, db.map (fun u => if u.id == user_id then persisted else u))

/-! ### py_webauthn library layer

`verify_registration_response` and `verify_authentication_response` are
modelled over an already-parsed response: the fields carry the client-data
challenge and origin, the relying-party id, and whether the cryptographic
signature verifies (for authentication, the response records which stored
public key validates its assertion signature).  The library raises
`InvalidRegistrationResponse` / `InvalidAuthenticationResponse` on any
check failure; its signature-counter rule is: when either the response
counter or the stored counter is positive, the response counter must be
strictly greater than the stored one. -/

/-- A parsed WebAuthn registration response. -/
structure RegistrationCredential where
  challenge : Bytes
  origin : String
  rp_id : String
  att_sig_valid : Bool
  credential_id : Bytes
  public_key : Bytes
  sign_count : Nat
  deriving DecidableEq, Repr

/-- The result object of `verify_registration_response`. -/
structure VerifiedRegistration where
  credential_id : Bytes
  credential_public_key : Bytes
  sign_count : Nat
  deriving DecidableEq, Repr

/-- py_webauthn `verify_registration_response`: challenge, origin, RP id
and attestation-signature checks, then the extracted credential. -/
def verify_registration_response (credential : RegistrationCredential)
    (expected_challenge : Option Bytes) (expected_origin expected_rp_id : String) :
    Except PyError VerifiedRegistration :=
  if expected_challenge ≠ some credential.challenge then
    .error (.invalidRegistration "Clientdata challenge was not expected challenge")
  else if credential.origin ≠ expected_origin then
    .error (.invalidRegistration "Unexpected client data origin")
  else if credential.rp_id ≠ expected_rp_id then
    .error (.invalidRegistration "Unexpected RP ID hash")
  else if ¬ credential.att_sig_valid then
    .error (.invalidRegistration "Could not verify attestation statement signature")
  else
    .ok ⟨credential.credential_id, credential.public_key, credential.sign_count⟩

/-- A parsed WebAuthn authentication response.  `id` is the decoded
credential id (the source applies `base64url_to_bytes` to the wire field);
`signed_with` is the public key that validates the assertion signature;
`sign_count` is the counter carried in the authenticator data. -/
structure AuthenticationCredential where
  id : Bytes
  challenge : Bytes
  origin : String
  rp_id : String
  signed_with : Bytes
  sign_count : Nat
  deriving DecidableEq, Repr

/-- The result object of `verify_authentication_response`. -/
structure VerifiedAuthentication where
  new_sign_count : Nat
  deriving DecidableEq, Repr

/-- py_webauthn `verify_authentication_response`: challenge, origin, RP id
and signature checks, then the signature-counter rule (strict increase
required unless both counters are zero). -/
def verify_authentication_response (credential : AuthenticationCredential)
    (expected_challenge : Option Bytes) (expected_origin expected_rp_id : String)
    (credential_public_key : Bytes) (credential_current_sign_count : Nat) :
    Except PyError VerifiedAuthentication :=
  if expected_challenge ≠ some credential.challenge then
    .error (.invalidAuthentication "Clientdata challenge was not expected challenge")
  else if credential.origin ≠ expected_origin then
    .error (.invalidAuthentication "Unexpected client data origin")
  else if credential.rp_id ≠ expected_rp_id then
    .error (.invalidAuthentication "Unexpected RP ID hash")
  else if credential.signed_with ≠ credential_public_key then
    .error (.invalidAuthentication "Could not verify authentication signature")
  else if (0 < credential.sign_count ∨ 0 < credential_current_sign_count)
      ∧ credential.sign_count ≤ credential_current_sign_count then
    .error (.invalidAuthentication
      ("Response sign count of " ++ toString credential.sign_count
        ++ " was not greater than current count of "
        ++ toString credential_current_sign_count))
  else
    .ok ⟨credential.sign_count⟩

/-! ### services/webauthn.py -/

/-- The attribute read `self.current_challenge` (webauthn.py lines 69 and
164): `WebAuthnService.__init__` (lines 22-28) assigns only
`self.session`, and no other code path ever assigns `current_challenge`
— the repository has no challenge storage at all (the source comments at
lines 69 and 164 say "You'll need to implement challenge storage").  The
attribute access therefore raises `AttributeError` on every call. -/
def WebAuthnService.current_challenge : Except PyError Bytes :=
  .error (.attributeError "WebAuthnService object has no attribute current_challenge")

/-- `WebAuthnService.verify_registration` (webauthn.py lines 49-99): inside
a broad `try`, read the pending challenge (raises, see
`WebAuthnService.current_challenge`), call the library verifier, persist
the new authenticator; `except Exception` maps any failure to HTTP 400
with the prefixed message. -/
def WebAuthnService.verify_registration (cfg : Settings) (db : List Authenticator)
    (next_id : Nat) (user : User) (credential : RegistrationCredential) :
    Except HTTPException (Authenticator × List Authenticator) :=
  match (do
      let ch ← WebAuthnService.current_challenge
      verify_registration_response credential (some ch)
        cfg.WEBAUTHN_RP_ORIGIN cfg.WEBAUTHN_RP_ID) with
  | .error e => .error ⟨400, "Registration verification failed: " ++ e.str⟩
  | .ok v =>
    let authenticator : Authenticator :=
      ⟨next_id, v.credential_id, v.credential_public_key, v.sign_count, user.id, none⟩
    .ok (authenticator, db ++ [authenticator])

/-- Authentication options returned by
`WebAuthnService.generate_authentication_options` (webauthn.py lines
122-130): relying-party id and the allow-credentials list built from the
user's registered authenticators. -/
structure AuthenticationOptions where
  rp_id : String
  allow_credentials : List (String × Bytes)
  deriving DecidableEq, Repr

/-- `WebAuthnService.generate_authentication_options` (webauthn.py lines
101-130): collect the user's authenticators; HTTP 400 "No authenticators
registered for user" when there are none, otherwise the options with the
allow-credentials list. -/
def WebAuthnService.generate_authentication_options (cfg : Settings)
    (db : List Authenticator) (user : User) : Except HTTPException AuthenticationOptions :=
  let authenticators := db.filter (fun a => a.user_id == user.id)
  if authenticators.isEmpty then
    .error ⟨400, "No authenticators registered for user"⟩
  else
    .ok ⟨cfg.WEBAUTHN_RP_ID,
         authenticators.map (fun a => ("public-key", a.credential_id))⟩

/-- `WebAuthnService.verify_authentication` (webauthn.py lines 132-186):
inside a broad `try`, resolve the authenticator by credential id (the
inner HTTPException 400 "Authenticator not found" is itself caught by the
`except Exception` and re-raised as 401 with `str(e)` = "400:
Authenticator not found"), read the pending challenge (raises, see
`WebAuthnService.current_challenge`), call the library verifier, then
update the stored counter and last-used timestamp and return the owning
user.  The returned list is the authenticator table after the call. -/
def WebAuthnService.verify_authentication (cfg : Settings) (users : List User)
    (db : List Authenticator) (credential : AuthenticationCredential) (now : Int) :
    Except HTTPException User × List Authenticator :=
  match db.find? (fun a => a.credential_id == credential.id) with
  | none => (.error ⟨401, "Authentication failed: 400: Authenticator not found"⟩, db)
  | some authenticator =>
    match (do
        let ch ← WebAuthnService.current_challenge
        verify_authentication_response credential (some ch)
          cfg.WEBAUTHN_RP_ORIGIN cfg.WEBAUTHN_RP_ID
          authenticator.public_key authenticator.sign_count) with
    | .error e => (.error ⟨401, "Authentication failed: " ++ e.str⟩, db)
    | .ok v =>
      let updated := { authenticator with sign_count := v.new_sign_count,
                                          last_used_at := some now }
      let db2 := db.map (fun a =>
        if a.credential_id == authenticator.credential_id then updated else a)
      match users.find? (fun u => u.id == authenticator.user_id) with
      | some user => (.ok user, db2)
      | none => (.error ⟨401, "Authentication failed: No row was found"⟩, db2)

/-! ### api/auth.py WebAuthn routes -/

/-- The `POST /webauthn/register/verify` route (api/auth.py lines 152-194):
calls the library verifier directly with `expected_challenge=None` (line
174) — no challenge is ever stored or compared — and maps any failure to
HTTP 400 with `str(e)`. -/
def api_webauthn_verify_register (cfg : Settings) (db : List Authenticator)
    (next_id : Nat) (current_user : User) (credential : RegistrationCredential) :
    Except HTTPException (Authenticator × List Authenticator) :=
  match verify_registration_response credential none
      cfg.WEBAUTHN_RP_ORIGIN cfg.WEBAUTHN_RP_ID with
  | .error e => .error ⟨400, e.str⟩
  | .ok v =>
    let authenticator : Authenticator :=
      ⟨next_id, v.credential_id, v.credential_public_key, v.sign_count, current_user.id, none⟩
    .ok (authenticator, db ++ [authenticator])

/-- The JWT payload built by the `POST /webauthn/authenticate/verify` route
(api/auth.py lines 251-255): `jwt.encode({"sub": str(user_id)}, ...)` —
the payload carries no `exp` and no `type` claim. -/
def api_webauthn_login_payload (user_id : Nat) : JwtPayload :=
  ⟨some (toString user_id), none, none⟩

/-- The token-issuance step of that route (api/auth.py lines 251-255): it
reads `settings.TOKEN_ALGORITHM`, which does not exist on `Settings`
(config.py defines `JWT_ALGORITHM`), so `AttributeError` is raised before
`jwt.encode` runs. -/
def api_webauthn_login_issue (cfg : Settings) (user_id : Nat) : Except PyError JwtToken :=
  match cfg.TOKEN_ALGORITHM_attr with
  | .error e => .error e
  | .ok alg => jose_encode (api_webauthn_login_payload user_id) (.secretStr cfg.SECRET_KEY) alg

/-- A well-formed bearer token payload per the specified format: a `sub`
claim, an `exp` claim, and a `type` claim equal to "access" or "refresh". -/
def well_formed_bearer (p : JwtPayload) : Bool :=
  p.sub.isSome && p.exp.isSome && (p.typ == some "access" || p.typ == some "refresh")

/-! ### Concrete fixtures used by the claim theorems -/

/-- A concrete settings instance (secret, HS256, the config defaults for
the lifetimes, and a local relying party). -/
def cfgEx : Settings :=
  ⟨⟨"test-secret"⟩, "HS256", 30, 7, "localhost", "Example RP", "http://localhost"⟩

/-- A stored user with no password hash. -/
def userEx : User := ⟨1, "a@x.com", none, "Alice", true, none⟩

/-- A stored user whose `password_hash` column holds the bcrypt hash of
"p@ss1234". -/
def userWithHash : User :=
  ⟨1, "a@x.com", some (PasswordService.hash_password 5 (strBytes "p@ss1234")), "Alice", true, none⟩

/-- A stored authenticator whose signature counter is 5. -/
def authEx : Authenticator := ⟨10, [1, 2, 3], [9, 9], 5, 1, none⟩

/-- An authentication response for `authEx` whose counter regressed to 3;
its origin, RP id and signing key all match `cfgEx`/`authEx`. -/
def credRegressEx : AuthenticationCredential :=
  ⟨[1, 2, 3], [7, 7], "http://localhost", "localhost", [9, 9], 3⟩

/-- An inbound refresh-shaped bearer token (type "refresh", unexpired at
time 0, algorithm matching `cfgEx`), as a client would present it. -/
def refreshTokEx : JwtToken :=
  ⟨⟨some "1", some 604800, some "refresh"⟩, "test-secret", "HS256"⟩

example : python_uuid_parse "00000000000000000000000000000001" = some 1 := by decide

example : decStrToNat "1" = some 1 := by decide

/-! ## Claim theorems -/

/-- C7 counterexample: `verify_password` called with a malformed stored
hash does not return a boolean — passlib raises `UnknownHashError`, so the
claim that it "returns a boolean ... and never raises" fails at the
concrete input (password "x", stored hash "not-a-hash"). -/
theorem C7_verify_raises_on_malformed_hash :
    PasswordService.verify_password (strBytes "x") (.malformed "not-a-hash")
      = .error (.unknownHashError "hash could not be identified") := by
  rfl

/-- C7 amended: for a well-formed bcrypt hash, `verify_password` returns a
boolean — true exactly when the 72-byte-truncated password matches the
hashed one — but for a malformed stored hash it raises `UnknownHashError`
rather than returning false. -/
theorem C7_verify_totality_amended :
    (∀ (pw pw2 : Bytes) (salt : Nat),
      PasswordService.verify_password pw (PasswordService.hash_password salt pw2)
        = .ok (decide (bcrypt_truncate pw = bcrypt_truncate pw2)))
    ∧ (∀ (pw : Bytes) (raw : String),
      PasswordService.verify_password pw (.malformed raw)
        = .error (.unknownHashError "hash could not be identified")) :=
  ⟨fun _ _ _ => rfl, fun _ _ => rfl⟩

/-- C8 counterexample: bcrypt truncates passwords at 72 bytes, so two
distinct 73-byte passwords that agree on their first 72 bytes verify
against each other's hashes — `verify(P, hash(P2))` is true for P ≠ P2. -/
theorem C8_truncation_collision :
    (List.replicate 72 97 ++ [120] : Bytes) ≠ (List.replicate 72 97 ++ [121] : Bytes)
    ∧ PasswordService.verify_password (List.replicate 72 97 ++ [120])
        (PasswordService.hash_password 5 (List.replicate 72 97 ++ [121])) = .ok true := by
  constructor
  · decide
  · rfl

/-- C8 amended: `verify(P, hash(P))` is always true, and
`verify(P, hash(P2))` is false whenever the first 72 bytes of P and P2
differ (bcrypt ignores everything beyond byte 72). -/
theorem C8_hash_verify_amended (salt : Nat) (P P2 : Bytes) :
    PasswordService.verify_password P (PasswordService.hash_password salt P) = .ok true
    ∧ (bcrypt_truncate P ≠ bcrypt_truncate P2 →
        PasswordService.verify_password P (PasswordService.hash_password salt P2) = .ok false) := by
  constructor
  · simp [PasswordService.verify_password, PasswordService.hash_password]
  · intro h
    simp [PasswordService.verify_password, PasswordService.hash_password, h]

/-- C8 witness: the amended theorem applied at salt 1 and the concrete
passwords "abc" and "abd". -/
theorem C8_hash_verify_amended_witness :
    PasswordService.verify_password (strBytes "abc")
      (PasswordService.hash_password 1 (strBytes "abc")) = .ok true
    ∧ PasswordService.verify_password (strBytes "abc")
      (PasswordService.hash_password 1 (strBytes "abd")) = .ok false :=
  ⟨(C8_hash_verify_amended 1 (strBytes "abc") (strBytes "abd")).1,
   (C8_hash_verify_amended 1 (strBytes "abc") (strBytes "abd")).2 (by decide)⟩

/-- C10: a user with zero registered authenticators makes
`generate_authentication_options` fail with HTTP 400 "No authenticators
registered for user" instead of returning an options structure. -/
theorem C10_empty_allow_list (cfg : Settings) (db : List Authenticator) (user : User)
    (h : db.filter (fun a => a.user_id == user.id) = []) :
    WebAuthnService.generate_authentication_options cfg db user
      = .error ⟨400, "No authenticators registered for user"⟩ := by
  simp only [WebAuthnService.generate_authentication_options, h]
  rfl

/-- C10 witness: the theorem applied to an empty authenticator table. -/
theorem C10_empty_allow_list_witness :
    WebAuthnService.generate_authentication_options cfgEx [] userEx
      = .error ⟨400, "No authenticators registered for user"⟩ :=
  C10_empty_allow_list cfgEx [] userEx rfl

/-- C5: the `to_encode` claim dicts built by `TokenService` (password
login and refresh paths) do carry `sub`, `exp` and
`type ∈ {access, refresh}` — though the subsequent `jwt.encode` raises on
the raw `SecretStr` key, so no token is ever actually issued (see the C2
theorem) — but the passkey login route (api/auth.py lines 250-257) builds
a payload with no `exp` and no `type` claim, and its issuance step reads
the nonexistent `settings.TOKEN_ALGORITHM`, raising `AttributeError`. -/
theorem C5_token_format_code_bug :
    (∀ (cfg : Settings) (uid : Nat) (now : Int),
      well_formed_bearer (TokenService.access_to_encode cfg uid now) = true
      ∧ well_formed_bearer (TokenService.refresh_to_encode cfg uid now) = true)
    ∧ (∀ uid : Nat, well_formed_bearer (api_webauthn_login_payload uid) = false)
    ∧ api_webauthn_login_issue cfgEx 1
        = .error (.attributeError "Settings object has no attribute TOKEN_ALGORITHM") :=
  ⟨fun _ _ _ => ⟨rfl, rfl⟩, fun _ => rfl, rfl⟩

/-- C6: the `POST /refresh` route can never return a token pair — it
constructs `TokenService(session)` although `TokenService` defines no
`__init__`, raising `TypeError` (HTTP 500) on every request; the
service-level `AuthService.refresh_tokens` also fails on every presented
token whose algorithm matches, with the uncaught `JWKError` from the raw
`SecretStr` key; and independently, the `sub` claims this application
writes (`str(user_id)` for integer ids, e.g. "1") can never parse as
UUIDs, so `verify_token`'s success branch would raise `ValueError` at
`UUID(sub)` even with proper key handling. -/
theorem C6_refresh_route_code_bug :
    (∀ (cfg : Settings) (tok : JwtToken) (now : Int),
      api_refresh_token cfg tok now
        = .error (.py (.typeError "TokenService() takes no arguments")))
    ∧ AuthService.refresh_tokens cfgEx refreshTokEx 0
        = .error (.py (.jwkError "Expecting a string- or bytes-formatted key."))
    ∧ python_uuid_parse (toString (1 : Nat)) = none :=
  ⟨fun _ _ _ => rfl, by decide, by decide⟩

/-- C3: the repository stores no challenge at all, so `verify_registration`
never fails with a `ChallengeNotFound`-style error for a stale challenge —
it fails on every call, with the generic HTTP 400 produced by the
`AttributeError` on the never-assigned `self.current_challenge`, and the
`/webauthn/register/verify` route, which passes `expected_challenge=None`,
likewise rejects every response with a generic 400; no challenge is ever
consumed. -/
theorem C3_challenge_storage_missing :
    (∀ (cfg : Settings) (db : List Authenticator) (next_id : Nat) (user : User)
        (credential : RegistrationCredential),
      WebAuthnService.verify_registration cfg db next_id user credential
        = .error ⟨400,
            "Registration verification failed: WebAuthnService object has no attribute current_challenge"⟩)
    ∧ (∀ (cfg : Settings) (db : List Authenticator) (next_id : Nat) (current_user : User)
        (credential : RegistrationCredential),
      api_webauthn_verify_register cfg db next_id current_user credential
        = .error ⟨400, "Clientdata challenge was not expected challenge"⟩) :=
  ⟨fun _ _ _ _ _ => rfl, fun _ _ _ _ _ => rfl⟩

/-- C4: with a stored counter of 5 and an incoming counter of 3, the
service does fail and does leave the stored record unchanged, but the
failure is the generic 401 caused by the missing challenge storage — the
signature-counter comparison lives in the webauthn library call that is
never reached.  The second conjunct shows that the library-level check,
called directly with the same stored record and response, would reject the
regression with its dedicated clone-detection error. -/
theorem C4_counter_regression_unreachable :
    WebAuthnService.verify_authentication cfgEx [userEx] [authEx] credRegressEx 99
      = (.error ⟨401,
          "Authentication failed: WebAuthnService object has no attribute current_challenge"⟩,
         [authEx])
    ∧ verify_authentication_response credRegressEx (some credRegressEx.challenge)
        cfgEx.WEBAUTHN_RP_ORIGIN cfgEx.WEBAUTHN_RP_ID authEx.public_key authEx.sign_count
      = .error (.invalidAuthentication
          "Response sign count of 3 was not greater than current count of 5") := by
  constructor
  · rfl
  · rfl

/-- C1: the end-to-end password path is broken by a field-name mismatch —
`create_user` passes the keyword `hashed_password` to the `User`
constructor although the model column is `password_hash`, so registering
"a@x.com"/"p@ss1234" raises `TypeError` and persists nothing; the
subsequent logins (correct and wrong password) both return 401 because the
user never exists; and even with a correctly seeded user row,
`authenticate_user` reads the nonexistent attribute `user.hashed_password`
and raises `AttributeError` instead of returning a token pair. -/
theorem C1_password_path_code_bug :
    UserService.create_user [] 1 5 ⟨"a@x.com", "Alice", some (strBytes "p@ss1234")⟩
      = .error (.py (.typeError "hashed_password is an invalid keyword argument for User"))
    ∧ api_login cfgEx [] "a@x.com" (strBytes "p@ss1234") 0
        = .error (.http ⟨401, "Incorrect email or password"⟩)
    ∧ api_login cfgEx [] "a@x.com" (strBytes "wrong") 0
        = .error (.http ⟨401, "Incorrect email or password"⟩)
    ∧ AuthService.authenticate_user [userWithHash] "a@x.com" (strBytes "p@ss1234")
        = .error (.attributeError "User object has no attribute hashed_password") :=
  ⟨rfl, rfl, rfl, rfl⟩

/-- C2: the kind-separation the claim describes never happens in the
program.  The pydantic `SecretStr` secret is passed raw to python-jose,
so `create_access_token`/`create_refresh_token` raise `JWSError` on every
call — there is no token to verify — and on every presented token
`verify_token` either 401s at the allowed-algorithm check or raises the
uncaught `JWKError` from key construction: the claimed WrongKind
rejection (HTTP 401 "Invalid token type") and the accepting branch are
both unreachable.  `get_current_user` likewise never accepts any token
(and its body contains no `type`-claim check anywhere, dependencies.py
lines 34-74). -/
theorem C2_token_kind_paths_unreachable :
    (∀ (cfg : Settings) (uid : Nat) (now : Int),
      TokenService.create_access_token cfg uid now
          = .error (.jwsError "Expecting a string- or bytes-formatted key.")
      ∧ TokenService.create_refresh_token cfg uid now
          = .error (.jwsError "Expecting a string- or bytes-formatted key."))
    ∧ (∀ (cfg : Settings) (tok : JwtToken) (k : String) (now : Int),
      TokenService.verify_token cfg tok k now
          = .error (.http ⟨401, "Invalid or expired token"⟩)
      ∨ TokenService.verify_token cfg tok k now
          = .error (.py (.jwkError "Expecting a string- or bytes-formatted key.")))
    ∧ (∀ (cfg : Settings) (db : List User) (tok : JwtToken) (now : Int),
      get_current_user cfg db tok now
          = .error (.http ⟨401, "Could not validate credentials"⟩)
      ∨ get_current_user cfg db tok now
          = .error (.py (.jwkError "Expecting a string- or bytes-formatted key."))) := by
  refine ⟨fun _ _ _ => ⟨rfl, rfl⟩, ?_, ?_⟩
  · intro cfg tok k now
    by_cases h : tok.alg = cfg.JWT_ALGORITHM
    · right
      simp [TokenService.verify_token, jose_decode, h, PyError.is_jwt_error]
    · left
      simp [TokenService.verify_token, jose_decode, h, PyError.is_jwt_error]
  · intro cfg db tok now
    by_cases h : tok.alg = cfg.JWT_ALGORITHM
    · right
      simp [get_current_user, jose_decode, h, PyError.is_jwt_error]
    · left
      simp [get_current_user, jose_decode, h, PyError.is_jwt_error]

/-- Helper: popping a key from a dict makes lookups of that key fail. -/
theorem dict_get_pop (l : PyDict) (k : String) : dict_get (dict_pop l k) k = none := by
  unfold dict_get dict_pop
  have hfind : List.find? (fun kv => kv.1 == k) (l.filter (fun kv => decide (kv.1 ≠ k)))
      = none := by
    rw [List.find?_eq_none]
    intro x hx
    rw [List.mem_filter] at hx
    have h2 : x.1 ≠ k := by simpa using hx.2
    simp [h2]
  rw [hfind]
  rfl

/-- C9: both user-persistence paths pop the plaintext `password` key from
the dumped dictionary before persisting, so the plaintext never reaches
the stored row — but the hash is written under the name `hashed_password`,
which is not a mapped column of the `User` model (the column is
`password_hash`), so `create_user` with a password raises `TypeError` and
persists nothing, and `update_user` with a password silently sets a
non-persisted attribute and leaves the stored row entirely unchanged: no
hash is ever stored either. -/
theorem C9_password_confinement_code_bug :
    (∀ (salt : Nat) (d : UserCreate),
      dict_get (UserService.create_user_dict salt d) "password" = none)
    ∧ (∀ (salt : Nat) (ud : UserUpdate),
      dict_get (UserService.update_user_dict salt ud) "password" = none)
    ∧ (∀ (db : List User) (next_id salt : Nat) (e n : String) (p : Bytes),
      UserService.get_user_by_email db e = none → p ≠ [] →
      UserService.create_user db next_id salt ⟨e, n, some p⟩
        = .error (.py (.typeError "hashed_password is an invalid keyword argument for User")))
    ∧ (∀ (db : List User) (u : User) (salt : Nat) (p : Bytes),
      db.find? (fun x => x.id == u.id) = some u → p ≠ [] →
      UserService.update_user db u.id salt ⟨none, none, some p⟩
        = .ok (u, db.map (fun x => if x.id == u.id then u else x))) := by
  refine ⟨?_, ?_, ?_, ?_⟩
  · intro salt d
    exact dict_get_pop _ _
  · intro salt ud
    exact dict_get_pop _ _
  · intro db next_id salt e n p hfind hp
    cases p with
    | nil => exact absurd rfl hp
    | cons b bs =>
      unfold UserService.create_user
      rw [hfind]
      rfl
  · intro db u salt p hfind hp
    cases p with
    | nil => exact absurd rfl hp
    | cons b bs =>
      unfold UserService.update_user
      rw [hfind]
      rfl

/-- C9 witness: the theorem applied at concrete inputs — creating a user
with a password on an empty table, and updating the stored user `userEx`
with a new password. -/
theorem C9_password_confinement_code_bug_witness :
    UserService.create_user [] 1 2 ⟨"b@x.com", "Bob", some (strBytes "pw1")⟩
      = .error (.py (.typeError "hashed_password is an invalid keyword argument for User"))
    ∧ UserService.update_user [userEx] userEx.id 2 ⟨none, none, some (strBytes "pw1")⟩
        = .ok (userEx, [userEx].map (fun x => if x.id == userEx.id then userEx else x)) :=
  ⟨C9_password_confinement_code_bug.2.2.1 [] 1 2 "b@x.com" "Bob" (strBytes "pw1") rfl
     (by decide),
   C9_password_confinement_code_bug.2.2.2 [userEx] userEx 2 (strBytes "pw1") (by decide)
     (by decide)⟩
